import Mathlib

/-!
Verification of the index-lifecycle-management core of the
opensearch-management repository (`src/ilm.py`), against its
natural-language specification.

The embedding is shallow: index and snapshot names are lists of
characters (`Name`), HTTP responses are modelled by explicit environment
records (`Env`), and each method of the `Ilm` class becomes a pure Lean
function that returns the list of mutating cluster calls it issues
(its call trace), exactly in source order.  Ages are rational numbers
(`ℚ`), modelling the Python floats; all divisions involved are exact in
the inputs considered, so no float-rounding behaviour is load-bearing.
-/

namespace OsMgmt

/-- Index / snapshot names, modelling Python `str` values. -/
abbrev Name := List Char

/-- Python `s.endswith(suffix)`. -/
def py_endswith (s suffix : Name) : Bool := suffix.isSuffixOf s

/-- Python `s.startswith(p)` for a single pattern `p`. -/
def py_startswith (s p : Name) : Bool := p.isPrefixOf s

/-- Python `s.startswith(patterns)` for a tuple of patterns. -/
def py_startswith_any (s : Name) (patterns : List Name) : Bool :=
  patterns.any (fun p => p.isPrefixOf s)

/-- Value of a decimal digit character, `none` for non-digits. -/
def digitVal? (c : Char) : Option Nat :=
  if '0' ≤ c ∧ c ≤ '9' then some (c.toNat - '0'.toNat) else none

/-- Parse a non-empty all-digit string to a natural number. -/
def digitsVal? : Name → Option Nat
  | [] => none
  | [c] => digitVal? c
  | c :: rest =>
    match digitVal? c, digitsVal? rest with
    | some d, some n => some (d * 10 ^ rest.length + n)
    | _, _ => none

/-- Python `int(s)` on a string: optional sign followed by digits,
`none` when the call raises `ValueError`.  (Surrounding whitespace and
underscore separators, which Python also accepts, do not occur in the
fields this repository reads and are not modelled.) -/
def py_int? (s : Name) : Option Int :=
  match s with
  | '-' :: rest => (digitsVal? rest).map (fun n => -(n : Int))
  | '+' :: rest => (digitsVal? rest).map (fun n => (n : Int))
  | _ => (digitsVal? s).map (fun n => (n : Int))

/-- Scanner for Python `s.replace(pat, '')`: walks `s` left to right;
`skip > 0` means that many characters of an already-matched occurrence
remain to be dropped.  At `skip = 0`, if `pat` matches at the current
position the occurrence is dropped (scanning resumes after it, without
rescanning, exactly as CPython does), otherwise the character is kept. -/
def py_replace_empty_aux (pat : Name) : Name → Nat → Name
  | [], _ => []
  | _ :: rest, skip + 1 => py_replace_empty_aux pat rest skip
  | c :: rest, 0 =>
    if pat ≠ [] ∧ pat.isPrefixOf (c :: rest) then
      py_replace_empty_aux pat rest (pat.length - 1)
    else
      c :: py_replace_empty_aux pat rest 0

/-- Python `s.replace(pat, '')`: removes every non-overlapping
occurrence of `pat`, scanning left to right. -/
def py_replace_empty (s pat : Name) : Name :=
  py_replace_empty_aux pat s 0

/-- `pat` occurs somewhere in `s` (as a contiguous sublist). -/
def occursIn (pat : Name) : Name → Bool
  | [] => pat = ([] : Name)
  | c :: rest => pat.isPrefixOf (c :: rest) || occursIn pat rest

/-- The literal suffix `"-snapshot"` that links a searchable-snapshot
index to its backing snapshot. -/
def snapSuffix : Name := "-snapshot".data

/-- The literal suffix `"-write"` excluded from management. -/
def writeSuffix : Name := "-write".data

/-- `src/ilm.py` `_get_corresponding_snapshot_name`: for names ending in
`-snapshot`, `index_name.replace("-snapshot", "")`; otherwise the name
itself.  (The source returns `Optional[str]` but never `None`.) -/
def get_corresponding_snapshot_name (index_name : Name) : Name :=
  if py_endswith index_name snapSuffix then
    py_replace_empty index_name snapSuffix
  else
    index_name

/-- Configuration of the `Ilm` class (`settings` fields it reads). -/
structure Config where
  hot_storage_days : Int
  total_retention_days : Int
  managed_index_patterns : List Name

/-- One row of the `_cat/snapshots` listing, with the four historical
epoch field spellings the code probes (absent key = `none`). -/
structure SnapRecord where
  id : Name
  status : Name
  end_epoch : Option Name
  endEpoch : Option Name
  start_epoch : Option Name
  startEpoch : Option Name
  deriving DecidableEq

/-- Body of a `GET _snapshot/data/<name>` detail response:
`snapshots[0]`'s timing fields and contained index names (a `none`
field models an absent key; the whole record being `none` in `Env`
models an HTTP error / exception / empty `snapshots` array where the
code paths treat those alike). -/
structure SnapInfo where
  end_time_in_millis : Option Int
  start_time_in_millis : Option Int
  indices : Option (List Name)
  deriving DecidableEq

/-- The cluster as seen through the administrative API: one field per
read-only query the `Ilm` methods perform. -/
structure Env where
  now : ℚ
  indices : List Name
  snapshots : List SnapRecord
  indexCreationDate : Name → Option (Option Name)
  snapDetail : Name → Option SnapInfo
  indexExists : Name → Bool
  snapshotExists : Name → Bool
  isWriteIndex : Name → Bool
  isSearchableSnapshot : Name → Bool

/-- `snap.get("end_epoch", snap.get("endEpoch"))`. -/
def endEpochField (snap : SnapRecord) : Option Name :=
  match snap.end_epoch with
  | some v => some v
  | none => snap.endEpoch

/-- `snap.get("start_epoch", snap.get("startEpoch"))`. -/
def startEpochField (snap : SnapRecord) : Option Name :=
  match snap.start_epoch with
  | some v => some v
  | none => snap.startEpoch

/-- Python truthiness filter on an optional integer: `0` and `None`
are both falsy (`if not end_epoch`). -/
def truthyInt (o : Option Int) : Option Int :=
  match o with
  | some e => if e = 0 then none else some e
  | none => none

/-- The epoch (in seconds) selected by `_snapshot_age_days`'s four-step
fallback, `none` when every source is unusable. -/
def snapshot_age_epoch (snap : SnapRecord) (detail : Option SnapInfo) : Option Int :=
  let e1 : Option Int := truthyInt ((endEpochField snap).bind py_int?)
  let e2 : Option Int :=
    match e1 with
    | some e => some e
    | none => truthyInt ((startEpochField snap).bind py_int?)
  let e3 : Option Int :=
    match e2 with
    | some e => some e
    | none =>
      match detail with
      | none => none
      | some info =>
        match info.end_time_in_millis with
        | some et =>
          if 0 < et then some (et / 1000)
          else
            match info.start_time_in_millis with
            | some st => if 0 < st then some (st / 1000) else none
            | none => none
        | none =>
          match info.start_time_in_millis with
          | some st => if 0 < st then some (st / 1000) else none
          | none => none
  truthyInt e3

/-- `src/ilm.py` `_snapshot_age_days`: age in days derived from the
first usable of `end_epoch`/`endEpoch`, `start_epoch`/`startEpoch`,
detail `end_time_in_millis`, detail `start_time_in_millis`; `-1` when
none is usable.  `detail` is the response of the step-3 query. -/
def snapshot_age_days (now : ℚ) (snap : SnapRecord) (detail : Option SnapInfo) : ℚ :=
  match snapshot_age_epoch snap detail with
  | none => -1
  | some e => (now - (e : ℚ)) / 86400

/-- `_snapshot_age_days` run against an environment (the detail query
goes to `_snapshot/data/<snap.id>`). -/
def snapshot_age_days_env (env : Env) (snap : SnapRecord) : ℚ :=
  snapshot_age_days env.now snap (env.snapDetail snap.id)

/-- `src/ilm.py` `_get_index_age_days`:
`(now - creation_date_ms/1000) / 86400`, and `0` on any failure (HTTP
error, missing field, unparseable value).  The outer `Option` is the
HTTP outcome, the inner one the presence of the settings field. -/
def get_index_age_days (env : Env) (index_name : Name) : ℚ :=
  match env.indexCreationDate index_name with
  | none => 0
  | some fieldVal =>
    match fieldVal.bind py_int? with
    | none => 0
    | some created_ms => (env.now - (created_ms : ℚ) / 1000) / 86400

/-- `src/ilm.py` `_get_searchable_snapshot_age_days`: age of the first
snapshot whose id equals the index name with all `-snapshot`
occurrences removed, when that age is non-negative; otherwise the
index's own creation age. -/
def get_searchable_snapshot_age_days (env : Env) (searchable_index_name : Name) : ℚ :=
  let snapshot_name := py_replace_empty searchable_index_name snapSuffix
  match env.snapshots.find? (fun s => s.id == snapshot_name) with
  | some s =>
    let age := snapshot_age_days_env env s
    if 0 ≤ age then age else get_index_age_days env searchable_index_name
  | none => get_index_age_days env searchable_index_name

/-- `src/ilm.py` `_should_manage_index`: never manage `-write` names;
otherwise manage exactly the configured prefixes. -/
def should_manage_index (cfg : Config) (index_name : Name) : Bool :=
  if py_endswith index_name writeSuffix then false
  else py_startswith_any index_name cfg.managed_index_patterns

/-- `src/ilm.py` `_is_ready_for_snapshot`. -/
def is_ready_for_snapshot (cfg : Config) (env : Env) (index_name : Name) : Bool :=
  if env.isWriteIndex index_name then false
  else if env.isSearchableSnapshot index_name then false
  else decide ((cfg.hot_storage_days : ℚ) ≤ get_index_age_days env index_name)

/-! ## The retention sweep (`cleanup_old_data`) and its deletion helpers -/

/-- A mutating cluster call issued by the sweep / cleanup helpers. -/
inductive Call where
  | deleteIndex (name : Name)
  | deleteSnapshot (name : Name)
  deriving DecidableEq

/-- `src/ilm.py` `_delete_snapshot_with_cleanup`: when the snapshot's
own name ends in `-snapshot` and an index of that exact name exists,
that index is deleted first; then the snapshot is deleted. -/
def delete_snapshot_with_cleanup (env : Env) (snapshot_name : Name) : List Call :=
  (if py_endswith snapshot_name snapSuffix ∧ env.indexExists snapshot_name then
     [Call.deleteIndex snapshot_name]
   else []) ++ [Call.deleteSnapshot snapshot_name]

/-- `src/ilm.py` `_cleanup_failed_snapshot`: delete the searchable
index `<name>-snapshot` first (if it exists), then the snapshot
`<name>` (if it exists). -/
def cleanup_failed_snapshot (env : Env) (index_name : Name) : List Call :=
  (if env.indexExists (index_name ++ snapSuffix) then
     [Call.deleteIndex (index_name ++ snapSuffix)]
   else []) ++
  (if env.snapshotExists index_name then
     [Call.deleteSnapshot index_name]
   else [])

/-- Phase 1 of `cleanup_old_data`: delete managed searchable-snapshot
indices whose (snapshot-derived) age reached retention. -/
def cleanup_phase1 (cfg : Config) (env : Env) : List Call :=
  env.indices.flatMap fun index_name =>
    if py_endswith index_name snapSuffix then
      let base_index_name := py_replace_empty index_name snapSuffix
      if should_manage_index cfg base_index_name then
        let age_days := get_searchable_snapshot_age_days env index_name
        if (cfg.total_retention_days : ℚ) ≤ age_days then
          [Call.deleteIndex index_name]
        else []
      else []
    else []

/-- Phase 2 of `cleanup_old_data`: delete regular managed indices past
retention, then (unconditionally) their corresponding snapshot. -/
def cleanup_phase2 (cfg : Config) (env : Env) : List Call :=
  env.indices.flatMap fun index_name =>
    if ¬ should_manage_index cfg index_name then []
    else if py_endswith index_name snapSuffix then []
    else
      let age_days := get_index_age_days env index_name
      if (cfg.total_retention_days : ℚ) ≤ age_days then
        Call.deleteIndex index_name ::
          (let corresponding := get_corresponding_snapshot_name index_name
           if corresponding ≠ [] then [Call.deleteSnapshot corresponding] else [])
      else []

/-- Phase 3 of `cleanup_old_data`: delete snapshots past retention,
skipping unknown (< 0) and implausible (≥ 20000 days) ages. -/
def cleanup_phase3 (cfg : Config) (env : Env) : List Call :=
  env.snapshots.flatMap fun snapshot =>
    let snapshot_age := snapshot_age_days_env env snapshot
    if snapshot_age < 0 then []
    else if 20000 ≤ snapshot_age then []
    else if (cfg.total_retention_days : ℚ) ≤ snapshot_age then
      delete_snapshot_with_cleanup env snapshot.id
    else []

/-- `src/ilm.py` `cleanup_old_data`: the three phases in order. -/
def cleanup_old_data (cfg : Config) (env : Env) : List Call :=
  cleanup_phase1 cfg env ++ cleanup_phase2 cfg env ++ cleanup_phase3 cfg env

/-! ## The snapshot completion-polling sub-protocol -/

/-- Outcome of one status poll in `_wait_for_snapshot_completion`:
either a reported snapshot `state`, or a poll-level failure (non-200
response, empty `snapshots` array, raised exception) that makes the
function return `False` immediately. -/
inductive PollResult where
  | state (s : Name)
  | pollFailure
  deriving DecidableEq

/-- The loop of `_wait_for_snapshot_completion`, polling `polls i`,
`polls (i+1)`, … with `remaining` polls left before timeout.
`SUCCESS`/`PARTIAL` succeed, `FAILED` fails, every other reported state
(`IN_PROGRESS`, `STARTED`, `INIT`, unrecognized) sleeps and continues. -/
def wait_poll_from (polls : Nat → PollResult) : Nat → Nat → Bool
  | _, 0 => false
  | i, remaining + 1 =>
    match polls i with
    | PollResult.pollFailure => false
    | PollResult.state s =>
      if s = "SUCCESS".data then true
      else if s = "PARTIAL".data then true
      else if s = "FAILED".data then false
      else wait_poll_from polls (i + 1) remaining

/-- `src/ilm.py` `_wait_for_snapshot_completion`: poll every 30 s for
at most `max_wait_minutes` minutes, i.e. `max_wait_minutes * 60 / 30`
polls (the source default is 60 minutes, hence 120 polls). -/
def wait_for_snapshot_completion (polls : Nat → PollResult) (max_wait_minutes : Nat) : Bool :=
  wait_poll_from polls 0 ((max_wait_minutes * 60) / 30)

/-! ## The snapshot transition state machine -/

/-- Abstract cluster state around one index's transition: whether the
original index, its searchable mount `<name>-snapshot`, and its backing
snapshot `<name>` currently exist. -/
structure ClusterState where
  originalExists : Bool
  searchableExists : Bool
  snapshotExists : Bool
  deriving DecidableEq

/-- Outcome oracle for one attempt of `_snapshot_and_replace_index`:
`snapOk` is the return of `_create_snapshot_with_validation`, `mountOk`
of `_create_searchable_snapshot` (an exception anywhere is modelled as
the failing outcome of the step it interrupted).  The `Artifact` flags
say whether the failing step nevertheless left a (possibly partial)
snapshot / searchable index behind. -/
structure AttemptOutcome where
  snapOk : Bool
  snapArtifact : Bool
  mountOk : Bool
  mountArtifact : Bool

/-- Observable events of the transition workflow, in issue order. -/
inductive Ev where
  | snapshotCreateValidate (ok : Bool)
  | searchableMount (ok : Bool)
  | deleteOriginal
  | cleanupDeleteSearchable
  | cleanupDeleteSnapshot
  deriving DecidableEq

/-- Effect of `_cleanup_failed_snapshot` on the abstract state: the
searchable index and the snapshot are removed (each delete is issued
only if the artifact exists; deletion is modelled as effective). -/
def cleanupState (st : ClusterState) : ClusterState :=
  { st with searchableExists := false, snapshotExists := false }

/-- Events issued by `_cleanup_failed_snapshot` from state `st`. -/
def cleanupEvents (st : ClusterState) : List Ev :=
  (if st.searchableExists then [Ev.cleanupDeleteSearchable] else []) ++
  (if st.snapshotExists then [Ev.cleanupDeleteSnapshot] else [])

/-- One attempt of `_snapshot_and_replace_index`: create-and-validate
the snapshot, mount it as searchable, and only if both succeeded delete
the original index (returning `true` = done); on any failure run
`_cleanup_failed_snapshot` and report not-done. -/
def attempt (st : ClusterState) (o : AttemptOutcome) : ClusterState × List Ev × Bool :=
  let st1 := { st with snapshotExists := if o.snapOk then true else o.snapArtifact }
  if o.snapOk then
    let st2 := { st1 with searchableExists := if o.mountOk then true else o.mountArtifact }
    if o.mountOk then
      ({ st2 with originalExists := false },
       [Ev.snapshotCreateValidate true, Ev.searchableMount true, Ev.deleteOriginal],
       true)
    else
      (cleanupState st2,
       [Ev.snapshotCreateValidate true, Ev.searchableMount false] ++ cleanupEvents st2,
       false)
  else
    (cleanupState st1,
     Ev.snapshotCreateValidate false :: cleanupEvents st1,
     false)

/-- `src/ilm.py` `_snapshot_and_replace_index`: run the attempts in
order (the source performs `max_retries = 3` of them), stopping at the
first success; retries exhausted leave the original index intact. -/
def snapshot_and_replace_index (outcomes : List AttemptOutcome) (st : ClusterState) :
    ClusterState × List Ev :=
  match outcomes with
  | [] => (st, [])
  | o :: rest =>
    let r := attempt st o
    if r.2.2 then (r.1, r.2.1)
    else
      let r2 := snapshot_and_replace_index rest r.1
      (r2.1, r.2.1 ++ r2.2)

/-! ## The transition driver (`transition_old_indices_to_snapshots`) -/

/-- `src/ilm.py` `transition_old_indices_to_snapshots`: skipped
entirely when `hot_storage_days >= total_retention_days`; otherwise
each managed, snapshot-ready index runs the transition workflow.  The
trace tags each workflow event with its index; the initial per-index
abstract state is read from the environment. -/
def transition_old_indices_to_snapshots (cfg : Config) (env : Env)
    (outcomes : Name → List AttemptOutcome) : List (Name × Ev) :=
  if cfg.total_retention_days ≤ cfg.hot_storage_days then []
  else
    env.indices.flatMap fun index_name =>
      if ¬ should_manage_index cfg index_name then []
      else if is_ready_for_snapshot cfg env index_name then
        (snapshot_and_replace_index (outcomes index_name)
          { originalExists := true
            searchableExists := env.indexExists (index_name ++ snapSuffix)
            snapshotExists := env.snapshotExists index_name }).2.map
          (fun e => (index_name, e))
      else []

/-! ## The restore reconciler (`restore_missing_searchable_snapshots`) -/

/-- A mount-as-searchable restore request, naming the snapshot restored
from and the contained index being mounted (as `<index>-snapshot`). -/
inductive RCall where
  | restore (snapshot_name : Name) (index_name : Name)
  deriving DecidableEq

/-- `src/ilm.py` `_restore_as_searchable`: for every non-data-stream
index contained in the snapshot whose searchable-mount name does not
already exist, issue a restore request.  (The base index's existence is
not consulted here.) -/
def restore_as_searchable (env : Env) (snapshot_name : Name)
    (existing_indices : List Name) : List RCall :=
  match env.snapDetail snapshot_name with
  | none => []
  | some info =>
    match info.indices with
    | none => []
    | some idxs =>
      idxs.flatMap fun index_name =>
        if py_startswith index_name ".ds".data then []
        else if (index_name ++ snapSuffix) ∈ existing_indices then []
        else [RCall.restore snapshot_name index_name]

/-- `src/ilm.py` `restore_missing_searchable_snapshots`: for every
`SUCCESS` snapshot of known age at least `hot_storage_days`, if some
contained managed index exists under neither its base nor its
searchable-mount name, hand the whole snapshot to
`_restore_as_searchable`. -/
def restore_missing_searchable_snapshots (cfg : Config) (env : Env) : List RCall :=
  let existing_indices := env.indices
  env.snapshots.flatMap fun snapshot =>
    if snapshot.status ≠ "SUCCESS".data then []
    else
      let snapshot_age := snapshot_age_days_env env snapshot
      if snapshot_age < 0 then []
      else if snapshot_age < (cfg.hot_storage_days : ℚ) then []
      else
        match env.snapDetail snapshot.id with
        | none => []
        | some info =>
          match info.indices with
          | none => []
          | some snapshot_indices =>
            let should_restore := snapshot_indices.any fun index_name =>
              ¬ py_startswith index_name ".ds".data ∧
              should_manage_index cfg index_name ∧
              index_name ∉ existing_indices ∧
              (index_name ++ snapSuffix) ∉ existing_indices
            if should_restore then
              restore_as_searchable env snapshot.id existing_indices
            else []

/-! ## Concrete fixtures used by counterexamples and witnesses -/

/-- A snapshot listing row with only `endEpoch = "0"`: every age source
is unusable. -/
def snapZeroEpoch : SnapRecord :=
  { id := "s1".data, status := "SUCCESS".data
    end_epoch := none, endEpoch := some "0".data
    start_epoch := none, startEpoch := none }

/-- A snapshot listing row whose `endEpoch` is 7 776 000 s (= day 90),
i.e. 10 days old at `now = 8 640 000 s` (= day 100). -/
def snapYoung : SnapRecord :=
  { id := "log-old".data, status := "SUCCESS".data
    end_epoch := none, endEpoch := some "7776000".data
    start_epoch := none, startEpoch := none }

/-- Sweep configuration: 7 hot days, 90 retention days, `log` prefix. -/
def cfgSweep : Config :=
  { hot_storage_days := 7, total_retention_days := 90
    managed_index_patterns := ["log".data] }

/-- A cluster at `now = 8 640 000 s` (day 100) with one 100-day-old
managed index `log-old` whose like-named snapshot is only 10 days old. -/
def envSweep : Env :=
  { now := 8640000
    indices := ["log-old".data]
    snapshots := [snapYoung]
    indexCreationDate := fun _ => some (some "0".data)
    snapDetail := fun _ => none
    indexExists := fun _ => false
    snapshotExists := fun _ => true
    isWriteIndex := fun _ => false
    isSearchableSnapshot := fun _ => false }

/-- A cluster in which the index `foo-snapshot` (the searchable mount
backed by snapshot `foo`) exists, and every snapshot exists. -/
def envMount : Env :=
  { now := 0
    indices := []
    snapshots := []
    indexCreationDate := fun _ => none
    snapDetail := fun _ => none
    indexExists := fun n => n == "foo-snapshot".data
    snapshotExists := fun _ => true
    isWriteIndex := fun _ => false
    isSearchableSnapshot := fun _ => false }

/-- Detail record for a snapshot containing indices `log-a`, `log-b`. -/
def infoRestore : SnapInfo :=
  { end_time_in_millis := none, start_time_in_millis := none
    indices := some ["log-a".data, "log-b".data] }

/-- A snapshot 30 days old at `now = 7 776 000 s` (day 90). -/
def snapMounted : SnapRecord :=
  { id := "s1".data, status := "SUCCESS".data
    end_epoch := none, endEpoch := some "5184000".data
    start_epoch := none, startEpoch := none }

/-- A cluster where snapshot `s1` contains `log-a` (missing under both
names) and `log-b` (whose base index exists). -/
def envRestore : Env :=
  { now := 7776000
    indices := ["log-b".data]
    snapshots := [snapMounted]
    indexCreationDate := fun _ => none
    snapDetail := fun _ => some infoRestore
    indexExists := fun _ => false
    snapshotExists := fun _ => false
    isWriteIndex := fun _ => false
    isSearchableSnapshot := fun _ => false }

/-- Configuration with hot storage equal to total retention (30 days),
the `hot ≥ total` boundary the configuration validator allows. -/
def cfgEqual : Config :=
  { hot_storage_days := 30, total_retention_days := 30
    managed_index_patterns := ["log".data] }

/-- Detail record for a snapshot containing only `log-a`. -/
def infoOneIndex : SnapInfo :=
  { end_time_in_millis := none, start_time_in_millis := none
    indices := some ["log-a".data] }

/-- A snapshot 40 days old at `now = 8 640 000 s` (day 100). -/
def snapForty : SnapRecord :=
  { id := "s2".data, status := "SUCCESS".data
    end_epoch := none, endEpoch := some "5184000".data
    start_epoch := none, startEpoch := none }

/-- A cluster with no indices and one 40-day-old snapshot `s2`
containing the missing managed index `log-a`. -/
def envEqual : Env :=
  { now := 8640000
    indices := []
    snapshots := [snapForty]
    indexCreationDate := fun _ => none
    snapDetail := fun _ => some infoOneIndex
    indexExists := fun _ => false
    snapshotExists := fun _ => false
    isWriteIndex := fun _ => false
    isSearchableSnapshot := fun _ => false }

/-- A cluster whose every index reports `creation_date` 864 000 000 ms
(= epoch second 864 000, day 10), observed at `now = 0`: the creation
timestamp lies 10 days in the future. -/
def envFuture : Env :=
  { now := 0
    indices := []
    snapshots := []
    indexCreationDate := fun _ => some (some "864000000".data)
    snapDetail := fun _ => none
    indexExists := fun _ => false
    snapshotExists := fun _ => false
    isWriteIndex := fun _ => false
    isSearchableSnapshot := fun _ => false }

/-- A poll sequence: one `IN_PROGRESS` report, then `SUCCESS` forever. -/
def pollsInProgressThenSuccess : Nat → PollResult := fun i =>
  if i = 0 then PollResult.state "IN_PROGRESS".data
  else PollResult.state "SUCCESS".data

/-- A continue-poll outcome: a reported state that is none of
`SUCCESS`, `PARTIAL`, `FAILED` (the loop sleeps and polls again). -/
def isContinueState (p : PollResult) : Bool :=
  match p with
  | PollResult.state s =>
    ¬(s = "SUCCESS".data) ∧ ¬(s = "PARTIAL".data) ∧ ¬(s = "FAILED".data)
  | PollResult.pollFailure => false

/-- An attempt in which snapshot validation and mount both succeed. -/
def attemptSuccess : AttemptOutcome :=
  { snapOk := true, snapArtifact := true, mountOk := true, mountArtifact := true }

/-- The abstract state before a transition: the original index exists,
no mount and no snapshot yet. -/
def freshState : ClusterState :=
  { originalExists := true, searchableExists := false, snapshotExists := false }

/-! ## Lemmas about `py_replace_empty` and the `-snapshot` suffix -/

theorem py_replace_empty_aux_consume (pat t : Name) :
    ∀ xs : Name, py_replace_empty_aux pat (xs ++ t) xs.length = py_replace_empty_aux pat t 0 := by
  intro xs
  induction xs with
  | nil => rfl
  | cons x xs ih => simpa [py_replace_empty_aux] using ih

theorem aux_step_match (pat s : Name) (c : Char)
    (hpre : pat.isPrefixOf (c :: s) = true) (hne : pat ≠ []) :
    py_replace_empty_aux pat (c :: s) 0 = py_replace_empty_aux pat s (pat.length - 1) := by
  simp [py_replace_empty_aux, hpre, hne]

theorem aux_step_nomatch (pat s : Name) (c : Char)
    (hpre : pat.isPrefixOf (c :: s) = false) :
    py_replace_empty_aux pat (c :: s) 0 = c :: py_replace_empty_aux pat s 0 := by
  simp [py_replace_empty_aux, hpre]

/-- The pattern `-snapshot` has no nonempty proper border: it is never
equal to a proper prefix of itself followed by the complementary-length
prefix.  This is what makes occurrences unable to straddle a boundary. -/
theorem snapSuffix_no_border :
    ∀ k, k < 9 → 0 < k → snapSuffix ≠ snapSuffix.take k ++ snapSuffix.take (9 - k) := by
  decide

/-- No occurrence of `-snapshot` can start strictly inside a block `s₁`
that does not start with `-snapshot`, when `-snapshot` follows it. -/
theorem snapSuffix_no_straddle (s₁ t : Name) (hne : s₁ ≠ [])
    (hfree : snapSuffix.isPrefixOf s₁ = false) :
    snapSuffix.isPrefixOf (s₁ ++ (snapSuffix ++ t)) = false := by
  cases hb : snapSuffix.isPrefixOf (s₁ ++ (snapSuffix ++ t)) with
  | false => rfl
  | true =>
    exfalso
    have hpre : snapSuffix <+: s₁ ++ (snapSuffix ++ t) := List.isPrefixOf_iff_prefix.mp hb
    by_cases hlen : 9 ≤ s₁.length
    · have h1 : snapSuffix <+: s₁ :=
        List.prefix_of_prefix_length_le hpre (List.prefix_append s₁ _)
          (by simpa [show snapSuffix.length = 9 from rfl] using hlen)
      rw [← List.isPrefixOf_iff_prefix, hfree] at h1
      exact Bool.false_ne_true h1
    · push_neg at hlen
      have hk0 : 0 < s₁.length := List.length_pos.mpr hne
      have heq : snapSuffix = (s₁ ++ (snapSuffix ++ t)).take 9 := by
        have h := List.prefix_iff_eq_take.mp hpre
        rwa [show snapSuffix.length = 9 from rfl] at h
      rw [List.take_append_eq_append_take, List.take_of_length_le (le_of_lt hlen),
        List.take_append_eq_append_take,
        show (9 - s₁.length - snapSuffix.length) = 0 by
          have : snapSuffix.length = 9 := rfl
          omega,
        List.take_zero, List.append_nil] at heq
      have hs₁ : s₁ = snapSuffix.take s₁.length := by
        have := congrArg (fun l => List.take s₁.length l) heq
        simpa [List.take_left] using this.symm
      rw [hs₁] at heq
      exact snapSuffix_no_border s₁.length hlen hk0
        (by simpa [← hs₁] using heq)

/-- Scanning a `-snapshot`-free block emits it unchanged, then consumes
the following `-snapshot` occurrence and continues after it. -/
theorem py_replace_skip_clean (t : Name) :
    ∀ base : Name, occursIn snapSuffix base = false →
      py_replace_empty_aux snapSuffix (base ++ (snapSuffix ++ t)) 0 =
        base ++ py_replace_empty_aux snapSuffix t 0 := by
  intro base
  induction base with
  | nil =>
    intro _
    have hpre : snapSuffix.isPrefixOf (snapSuffix ++ t) = true :=
      List.isPrefixOf_iff_prefix.mpr (List.prefix_append _ _)
    calc py_replace_empty_aux snapSuffix ([] ++ (snapSuffix ++ t)) 0
        = py_replace_empty_aux snapSuffix (snapSuffix ++ t) 0 := by rw [List.nil_append]
      _ = py_replace_empty_aux snapSuffix ("snapshot".data ++ t) (snapSuffix.length - 1) := by
          rw [show snapSuffix ++ t = '-' :: ("snapshot".data ++ t) from rfl] at hpre ⊢
          exact aux_step_match _ _ _ hpre (by decide)
      _ = py_replace_empty_aux snapSuffix t 0 := by
          rw [show snapSuffix.length - 1 = ("snapshot".data).length from rfl]
          exact py_replace_empty_aux_consume _ _ _
  | cons c base ih =>
    intro hfree
    rw [occursIn, Bool.or_eq_false_iff] at hfree
    have hnost : snapSuffix.isPrefixOf ((c :: base) ++ (snapSuffix ++ t)) = false :=
      snapSuffix_no_straddle (c :: base) t (by simp) hfree.1
    calc py_replace_empty_aux snapSuffix ((c :: base) ++ (snapSuffix ++ t)) 0
        = c :: py_replace_empty_aux snapSuffix (base ++ (snapSuffix ++ t)) 0 := by
          rw [List.cons_append] at hnost ⊢
          exact aux_step_nomatch _ _ _ hnost
      _ = c :: (base ++ py_replace_empty_aux snapSuffix t 0) := by rw [ih hfree.2]
      _ = (c :: base) ++ py_replace_empty_aux snapSuffix t 0 := by simp

/-- Removing every `-snapshot` occurrence from `base ++ "-snapshot"`
gives back `base` whenever `base` itself is occurrence-free. -/
theorem py_replace_clean_append (base : Name) (h : occursIn snapSuffix base = false) :
    py_replace_empty (base ++ snapSuffix) snapSuffix = base := by
  have h1 := py_replace_skip_clean [] base h
  simpa [py_replace_empty, py_replace_empty_aux] using h1

/-! ## Claim C9 -/

/-- C9, counterexample: on `log-snapshot-000001-snapshot` the code
removes the interior `-snapshot` too (Python `str.replace` removes
every occurrence), returning `log-000001`, not the claimed
`log-snapshot-000001`. -/
theorem corresponding_snapshot_name_strips_interior :
    get_corresponding_snapshot_name "log-snapshot-000001-snapshot".data
        = "log-000001".data ∧
    get_corresponding_snapshot_name "log-snapshot-000001-snapshot".data
        ≠ "log-snapshot-000001".data := by
  exact ⟨by decide, by decide⟩

/-- C9 (amended): `_get_corresponding_snapshot_name` returns the name
unchanged when it does not end in `-snapshot`; when it does end in
`-snapshot`, it removes every left-to-right occurrence of `-snapshot`,
not only the trailing one — on a `-snapshot`-free base it strips
exactly the suffix, and an interior occurrence is removed as well. -/
theorem corresponding_snapshot_name_spec :
    (∀ name : Name, py_endswith name snapSuffix = false →
        get_corresponding_snapshot_name name = name) ∧
    (∀ base : Name, occursIn snapSuffix base = false →
        get_corresponding_snapshot_name (base ++ snapSuffix) = base) ∧
    (∀ b₁ b₂ : Name, occursIn snapSuffix b₁ = false → occursIn snapSuffix b₂ = false →
        get_corresponding_snapshot_name (b₁ ++ snapSuffix ++ b₂ ++ snapSuffix)
          = b₁ ++ b₂) := by
  refine ⟨?_, ?_, ?_⟩
  · intro name h
    simp [get_corresponding_snapshot_name, h]
  · intro base h
    have hsfx : py_endswith (base ++ snapSuffix) snapSuffix = true :=
      List.isSuffixOf_iff_suffix.mpr (List.suffix_append _ _)
    simp only [get_corresponding_snapshot_name, hsfx, if_true]
    exact py_replace_clean_append base h
  · intro b₁ b₂ h₁ h₂
    have hsfx : py_endswith (b₁ ++ snapSuffix ++ b₂ ++ snapSuffix) snapSuffix = true :=
      List.isSuffixOf_iff_suffix.mpr (List.suffix_append _ _)
    simp only [get_corresponding_snapshot_name, hsfx, if_true]
    have hassoc : b₁ ++ snapSuffix ++ b₂ ++ snapSuffix
        = b₁ ++ (snapSuffix ++ (b₂ ++ snapSuffix)) := by simp
    rw [py_replace_empty, hassoc, py_replace_skip_clean (b₂ ++ snapSuffix) b₁ h₁]
    have h2 := py_replace_skip_clean [] b₂ h₂
    simp only [List.append_nil] at h2
    rw [h2]
    simp [py_replace_empty_aux]

/-- C9, witness: the amended theorem applied at the repository's own
test inputs. -/
theorem corresponding_snapshot_name_spec_witness :
    get_corresponding_snapshot_name "log-000001".data = "log-000001".data ∧
    get_corresponding_snapshot_name "log-000001-snapshot".data = "log-000001".data ∧
    get_corresponding_snapshot_name "alert-system-2024.01.15-snapshot".data
        = "alert-system-2024.01.15".data :=
  ⟨corresponding_snapshot_name_spec.1 "log-000001".data (by decide),
   corresponding_snapshot_name_spec.2.1 "log-000001".data (by decide),
   corresponding_snapshot_name_spec.2.1 "alert-system-2024.01.15".data (by decide)⟩

/-! ## Claim C4 -/

theorem truthyInt_eq_some {o : Option Int} {e : Int} :
    truthyInt o = some e ↔ o = some e ∧ e ≠ 0 := by
  cases o with
  | none => simp [truthyInt]
  | some v =>
    by_cases hv : v = 0
    · subst hv
      simp only [truthyInt, if_pos rfl]
      constructor
      · intro h; cases h
      · rintro ⟨h1, h2⟩; exact absurd (Option.some_injective _ h1).symm h2
    · simp [truthyInt, hv]
      intro h; subst h; exact hv

/-- C4: `_snapshot_age_days` applies its four fallback sources in
order.  A usable first or second source (an epoch field that parses to
a non-zero integer) determines the age; with both fields unusable, a
detail-query `end_time_in_millis` of at least one second determines it;
with the end time absent or non-positive, `start_time_in_millis` does;
when no source yields a usable value the result is exactly −1; and the
result is never an age derived from epoch 0. -/
theorem snapshot_age_days_fallback (now : ℚ) (snap : SnapRecord) (detail : Option SnapInfo) :
    (∀ e : Int, truthyInt ((endEpochField snap).bind py_int?) = some e →
        snapshot_age_days now snap detail = (now - (e : ℚ)) / 86400) ∧
    (truthyInt ((endEpochField snap).bind py_int?) = none →
      ∀ e : Int, truthyInt ((startEpochField snap).bind py_int?) = some e →
        snapshot_age_days now snap detail = (now - (e : ℚ)) / 86400) ∧
    (truthyInt ((endEpochField snap).bind py_int?) = none →
      truthyInt ((startEpochField snap).bind py_int?) = none →
      ∀ info, detail = some info →
      ∀ et : Int, info.end_time_in_millis = some et → 1000 ≤ et →
        snapshot_age_days now snap detail = (now - ((et / 1000 : Int) : ℚ)) / 86400) ∧
    (truthyInt ((endEpochField snap).bind py_int?) = none →
      truthyInt ((startEpochField snap).bind py_int?) = none →
      ∀ info, detail = some info →
      (info.end_time_in_millis = none ∨ ∃ et, info.end_time_in_millis = some et ∧ et ≤ 0) →
      ∀ st : Int, info.start_time_in_millis = some st → 1000 ≤ st →
        snapshot_age_days now snap detail = (now - ((st / 1000 : Int) : ℚ)) / 86400) ∧
    (truthyInt ((endEpochField snap).bind py_int?) = none →
      truthyInt ((startEpochField snap).bind py_int?) = none →
      (∀ info, detail = some info →
        (∀ et : Int, info.end_time_in_millis = some et → et = 0) ∧
        (∀ st : Int, info.start_time_in_millis = some st → st = 0)) →
      snapshot_age_days now snap detail = -1) ∧
    (snapshot_age_days now snap detail = -1 ∨
      ∃ e : Int, e ≠ 0 ∧ snapshot_age_days now snap detail = (now - (e : ℚ)) / 86400) := by
  refine ⟨?_, ?_, ?_, ?_, ?_, ?_⟩
  · intro e h
    obtain ⟨-, hne⟩ := truthyInt_eq_some.mp h
    simp only [snapshot_age_days, snapshot_age_epoch, h]
    simp [truthyInt, hne]
  · intro h1 e h2
    obtain ⟨-, hne⟩ := truthyInt_eq_some.mp h2
    simp only [snapshot_age_days, snapshot_age_epoch, h1, h2]
    simp [truthyInt, hne]
  · intro h1 h2 info hdet et het hge
    subst hdet
    have hpos : (0 : Int) < et := by omega
    have hq : et / 1000 ≠ 0 := by
      have h1000 : (1 : Int) ≤ et / 1000 :=
        (Int.le_ediv_iff_mul_le (by norm_num)).mpr (by omega)
      omega
    simp only [snapshot_age_days, snapshot_age_epoch, h1, h2, het, if_pos hpos]
    simp [truthyInt, hq]
  · intro h1 h2 info hdet hend st hst hge
    subst hdet
    have hq : st / 1000 ≠ 0 := by
      have h1000 : (1 : Int) ≤ st / 1000 :=
        (Int.le_ediv_iff_mul_le (by norm_num)).mpr (by omega)
      omega
    rcases hend with hend | ⟨et, het, hle⟩
    · simp only [snapshot_age_days, snapshot_age_epoch, h1, h2, hend, hst,
        if_pos (by omega : (0:Int) < st)]
      simp [truthyInt, hq]
    · simp only [snapshot_age_days, snapshot_age_epoch, h1, h2, het, hst,
        if_neg (by omega : ¬ (0:Int) < et), if_pos (by omega : (0:Int) < st)]
      simp [truthyInt, hq]
  · intro h1 h2 h3
    cases detail with
    | none =>
      simp only [snapshot_age_days, snapshot_age_epoch, h1, h2]
      simp [truthyInt]
    | some info =>
      obtain ⟨hend, hstart⟩ := h3 info rfl
      cases het : info.end_time_in_millis with
      | none =>
        cases hst : info.start_time_in_millis with
        | none =>
          simp only [snapshot_age_days, snapshot_age_epoch, h1, h2, het, hst]
          simp [truthyInt]
        | some st =>
          have : st = 0 := hstart st hst
          subst this
          simp only [snapshot_age_days, snapshot_age_epoch, h1, h2, het, hst]
          simp [truthyInt]
      | some et =>
        have : et = 0 := hend et het
        subst this
        cases hst : info.start_time_in_millis with
        | none =>
          simp only [snapshot_age_days, snapshot_age_epoch, h1, h2, het, hst]
          simp [truthyInt]
        | some st =>
          have : st = 0 := hstart st hst
          subst this
          simp only [snapshot_age_days, snapshot_age_epoch, h1, h2, het, hst]
          simp [truthyInt]
  · cases hq : snapshot_age_epoch snap detail with
    | none => left; simp [snapshot_age_days, hq]
    | some e =>
      right
      refine ⟨e, ?_, by simp [snapshot_age_days, hq]⟩
      have h : truthyInt _ = some e := hq
      exact (truthyInt_eq_some.mp h).2

/-- C4, witness: the theorem applied to a concrete usable-`endEpoch`
snapshot and to the `endEpoch = "0"` snapshot with an empty detail
query, which yields exactly −1. -/
theorem snapshot_age_days_fallback_witness :
    snapshot_age_days 8640000 snapYoung none = (8640000 - (7776000 : ℚ)) / 86400 ∧
    snapshot_age_days 8640000 snapZeroEpoch none = -1 :=
  ⟨(snapshot_age_days_fallback 8640000 snapYoung none).1 7776000 (by decide),
   (snapshot_age_days_fallback 8640000 snapZeroEpoch none).2.2.2.2.1 (by decide) (by decide)
     (fun info h => nomatch h)⟩

/-! ## Claim C7 -/

/-- C7: for an index whose engine-reported creation timestamp lies 10
days in the future, `_get_index_age_days` returns −10, a negative
value — not the 0 demanded by the specification and by the
repository's own test (`test_age_calculation_future_timestamp_case`):
the function has no future-timestamp clamp. -/
theorem index_age_days_future_negative :
    get_index_age_days envFuture "log-future-000001".data = -10 ∧
    ¬ get_index_age_days envFuture "log-future-000001".data = 0 := by
  have hp : py_int? "864000000".data = some 864000000 := by decide
  have h : get_index_age_days envFuture "log-future-000001".data = -10 := by
    simp [get_index_age_days, envFuture, hp]
    norm_num
  exact ⟨h, by rw [h]; norm_num⟩

/-! ## Claim C8 -/

theorem wait_poll_from_skip (polls : Nat → PollResult) (i r : Nat)
    (h : isContinueState (polls i) = true) :
    wait_poll_from polls i (r + 1) = wait_poll_from polls (i + 1) r := by
  cases hp : polls i with
  | pollFailure => rw [hp] at h; simp [isContinueState] at h
  | state s =>
    rw [hp] at h
    simp only [isContinueState, Bool.decide_and, Bool.and_eq_true, decide_eq_true_eq] at h
    simp only [wait_poll_from, hp]
    rw [if_neg h.1, if_neg h.2.1, if_neg h.2.2]

theorem wait_poll_from_clean_shift (polls : Nat → PollResult) :
    ∀ (j i r : Nat), (∀ k, k < j → isContinueState (polls (i + k)) = true) → j ≤ r →
      wait_poll_from polls i r = wait_poll_from polls (i + j) (r - j) := by
  intro j
  induction j with
  | zero => intro i r _ _; simp
  | succ j ih =>
    intro i r hcont hle
    obtain ⟨r', rfl⟩ : ∃ r', r = r' + 1 := ⟨r - 1, by omega⟩
    rw [wait_poll_from_skip polls i r' (by simpa using hcont 0 (by omega))]
    rw [ih (i + 1) r' (fun k hk => by
        have hc := hcont (k + 1) (by omega)
        have heq : i + (k + 1) = i + 1 + k := by omega
        rwa [heq] at hc) (by omega)]
    have h1 : i + 1 + j = i + (j + 1) := by omega
    have h2 : r' - j = r' + 1 - (j + 1) := by omega
    rw [h1, h2]

theorem wait_poll_terminal_success (polls : Nat → PollResult) (i m : Nat)
    (h : polls i = PollResult.state "SUCCESS".data) :
    wait_poll_from polls i (m + 1) = true := by
  simp only [wait_poll_from, h]
  simp

theorem wait_poll_terminal_partial (polls : Nat → PollResult) (i m : Nat)
    (h : polls i = PollResult.state "PARTIAL".data) :
    wait_poll_from polls i (m + 1) = true := by
  simp only [wait_poll_from, h]
  simp

theorem wait_poll_terminal_failed (polls : Nat → PollResult) (i m : Nat)
    (h : polls i = PollResult.state "FAILED".data) :
    wait_poll_from polls i (m + 1) = false := by
  simp only [wait_poll_from, h]
  simp

/-- C8: with the source default of 60 minutes at 30-second intervals
(120 polls), if every poll before the `j`-th reports a
keep-polling state (`IN_PROGRESS`, `STARTED`, `INIT`, or anything
unrecognized), then a `SUCCESS` or `PARTIAL` report at poll `j < 120`
makes `_wait_for_snapshot_completion` return success, a `FAILED` report
makes it return failure, and 120 consecutive keep-polling reports make
it return failure by timeout. -/
theorem wait_for_snapshot_completion_spec (polls : Nat → PollResult) :
    (∀ j, j < 120 → (∀ k, k < j → isContinueState (polls k) = true) →
      ((polls j = PollResult.state "SUCCESS".data ∨
          polls j = PollResult.state "PARTIAL".data) →
        wait_for_snapshot_completion polls 60 = true) ∧
      (polls j = PollResult.state "FAILED".data →
        wait_for_snapshot_completion polls 60 = false)) ∧
    ((∀ k, k < 120 → isContinueState (polls k) = true) →
      wait_for_snapshot_completion polls 60 = false) ∧
    (60 * 60) / 30 = 120 := by
  refine ⟨?_, ?_, rfl⟩
  · intro j hj hcont
    have hshift := wait_poll_from_clean_shift polls j 0 120
      (fun k hk => by simpa using hcont k hk) (by omega)
    obtain ⟨m, hm⟩ : ∃ m, 120 - j = m + 1 := ⟨120 - j - 1, by omega⟩
    have hj0 : (0 : Nat) + j = j := by omega
    constructor
    · intro hterm
      rw [wait_for_snapshot_completion, show (60 * 60) / 30 = 120 from rfl, hshift, hm, hj0]
      rcases hterm with h | h
      · exact wait_poll_terminal_success polls j m h
      · exact wait_poll_terminal_partial polls j m h
    · intro hterm
      rw [wait_for_snapshot_completion, show (60 * 60) / 30 = 120 from rfl, hshift, hm, hj0]
      exact wait_poll_terminal_failed polls j m hterm
  · intro hcont
    have hshift := wait_poll_from_clean_shift polls 120 0 120
      (fun k hk => by simpa using hcont k hk) (by omega)
    rw [wait_for_snapshot_completion, show (60 * 60) / 30 = 120 from rfl, hshift]
    rfl

/-- C8, witness: one `IN_PROGRESS` poll followed by `SUCCESS` returns
success. -/
theorem wait_for_snapshot_completion_spec_witness :
    wait_for_snapshot_completion pollsInProgressThenSuccess 60 = true :=
  ((wait_for_snapshot_completion_spec pollsInProgressThenSuccess).1 1 (by omega)
    (fun k hk => by
      have hk0 : k = 0 := by omega
      subst hk0
      decide)).1 (Or.inl (by decide))

/-! ## Claim C10 -/

/-- C10: when `hot_storage_days ≥ total_retention_days`,
`transition_old_indices_to_snapshots` returns before issuing any
cluster call: its call trace is empty, so nothing is snapshotted,
mounted or deleted and the cluster is untouched. -/
theorem transition_skipped_when_no_cold_tier (cfg : Config) (env : Env)
    (outcomes : Name → List AttemptOutcome)
    (h : cfg.total_retention_days ≤ cfg.hot_storage_days) :
    transition_old_indices_to_snapshots cfg env outcomes = [] := by
  simp [transition_old_indices_to_snapshots, h]

/-- C10, witness: the skip at the boundary configuration
`hot = total = 30`, over a cluster that would otherwise act. -/
theorem transition_skipped_when_no_cold_tier_witness :
    transition_old_indices_to_snapshots cfgEqual envEqual (fun _ => []) = [] :=
  transition_skipped_when_no_cold_tier cfgEqual envEqual (fun _ => []) (by decide)

/-! ## Claim C6 -/

/-- The full restore trace of the boundary cluster `envEqual` under the
`hot = total = 30` configuration: one restore is issued. -/
theorem restore_env_equal_trace :
    restore_missing_searchable_snapshots cfgEqual envEqual
      = [RCall.restore "s2".data "log-a".data] := by
  have he : snapshot_age_epoch snapForty (envEqual.snapDetail snapForty.id)
      = some 5184000 := by decide
  have hage : snapshot_age_days_env envEqual snapForty = 40 := by
    simp only [snapshot_age_days_env, snapshot_age_days, he]
    norm_num [envEqual]
  simp only [restore_missing_searchable_snapshots]
  rw [show envEqual.snapshots = [snapForty] from rfl]
  simp only [List.flatMap_cons, List.flatMap_nil, List.append_nil]
  rw [if_neg (show ¬ snapForty.status ≠ "SUCCESS".data by decide)]
  rw [hage]
  rw [if_neg (show ¬ (40:ℚ) < 0 by norm_num)]
  rw [if_neg (show ¬ (40:ℚ) < (cfgEqual.hot_storage_days : ℚ) by norm_num [cfgEqual])]
  decide

/-- C6, counterexample: with `hot_storage_days = total_retention_days`
(the entire `hot ≥ total` region the configuration validator admits),
`restore_missing_searchable_snapshots` is not skipped: on `envEqual` it
issues a restore call. -/
theorem restore_not_skipped_counterexample :
    cfgEqual.total_retention_days ≤ cfgEqual.hot_storage_days ∧
    restore_missing_searchable_snapshots cfgEqual envEqual ≠ [] := by
  refine ⟨by decide, ?_⟩
  rw [restore_env_equal_trace]
  decide

/-- C6 (amended): `restore_missing_searchable_snapshots` has no
`hot ≥ total` guard at all — its behaviour is independent of
`total_retention_days` (only `transition_old_indices_to_snapshots` is
skipped in that configuration). -/
theorem restore_independent_of_total_retention (h t t' : Int) (p : List Name) (env : Env) :
    restore_missing_searchable_snapshots ⟨h, t, p⟩ env
      = restore_missing_searchable_snapshots ⟨h, t', p⟩ env := rfl

/-! ## Claim C1 -/

/-- C1, counterexample: `_delete_snapshot_with_cleanup` on the snapshot
`foo` issues only the snapshot delete, although the searchable index
`foo-snapshot` backed by it exists: no index delete precedes it. -/
theorem snapshot_deleted_while_mount_exists :
    envMount.indexExists ("foo".data ++ snapSuffix) = true ∧
    delete_snapshot_with_cleanup envMount "foo".data
      = [Call.deleteSnapshot "foo".data] :=
  ⟨by decide, by decide⟩

/-- C1 (amended): the index-then-snapshot order holds in
`_cleanup_failed_snapshot` (the mount `<name>-snapshot` is deleted
before the snapshot `<name>` whenever it exists), and in
`_delete_snapshot_with_cleanup` only for the index bearing the
snapshot's own name, when that name ends in `-snapshot`; a snapshot
whose name does not end in `-snapshot` is deleted without first
deleting its mount `<name>-snapshot`. -/
theorem deletion_order_amended (env : Env) (name : Name) :
    (env.indexExists (name ++ snapSuffix) = true →
      cleanup_failed_snapshot env name
        = Call.deleteIndex (name ++ snapSuffix) ::
            (if env.snapshotExists name then [Call.deleteSnapshot name] else [])) ∧
    (py_endswith name snapSuffix = true → env.indexExists name = true →
      delete_snapshot_with_cleanup env name
        = [Call.deleteIndex name, Call.deleteSnapshot name]) := by
  constructor
  · intro h
    simp [cleanup_failed_snapshot, h]
  · intro h1 h2
    simp [delete_snapshot_with_cleanup, h1, h2]

/-- C1, witness: both ordered-deletion paths on the cluster `envMount`. -/
theorem deletion_order_amended_witness :
    cleanup_failed_snapshot envMount "foo".data
      = [Call.deleteIndex "foo-snapshot".data, Call.deleteSnapshot "foo".data] ∧
    delete_snapshot_with_cleanup envMount "foo-snapshot".data
      = [Call.deleteIndex "foo-snapshot".data, Call.deleteSnapshot "foo-snapshot".data] := by
  constructor
  · have h := (deletion_order_amended envMount "foo".data).1 (by decide)
    rw [h]
    decide
  · exact (deletion_order_amended envMount "foo-snapshot".data).2 (by decide) (by decide)

/-! ## Claim C5 -/

/-- The full restore trace of the cluster `envRestore`: triggered by
the fully-missing `log-a`, the reconciler restores both contained
indices, including `log-b` whose base index exists. -/
theorem restore_env_restore_trace :
    restore_missing_searchable_snapshots cfgSweep envRestore
      = [RCall.restore "s1".data "log-a".data, RCall.restore "s1".data "log-b".data] := by
  have he : snapshot_age_epoch snapMounted (envRestore.snapDetail snapMounted.id)
      = some 5184000 := by decide
  have hage : snapshot_age_days_env envRestore snapMounted = 30 := by
    simp only [snapshot_age_days_env, snapshot_age_days, he]
    norm_num [envRestore]
  simp only [restore_missing_searchable_snapshots]
  rw [show envRestore.snapshots = [snapMounted] from rfl]
  simp only [List.flatMap_cons, List.flatMap_nil, List.append_nil]
  rw [if_neg (show ¬ snapMounted.status ≠ "SUCCESS".data by decide)]
  rw [hage]
  rw [if_neg (show ¬ (30:ℚ) < 0 by norm_num)]
  rw [if_neg (show ¬ (30:ℚ) < (cfgSweep.hot_storage_days : ℚ) by norm_num [cfgSweep])]
  decide

/-- C5, counterexample: snapshot `s1` contains `log-a` (absent under
both names, which triggers the restore) and `log-b`, whose base index
exists in the cluster; a restore request is nevertheless issued for
`log-b`, because `_restore_as_searchable` checks only the mount name. -/
theorem restore_issued_despite_base_exists :
    RCall.restore "s1".data "log-b".data
        ∈ restore_missing_searchable_snapshots cfgSweep envRestore ∧
    "log-b".data ∈ envRestore.indices := by
  constructor
  · rw [restore_env_restore_trace]
    decide
  · decide

/-- C5 (amended): a restore for contained index `i` of snapshot `s` is
issued only when `i` is not a data-stream backing index and `i`'s
searchable-mount name does not currently exist; the base-name and
managed-pattern checks apply only to the snapshot-level trigger — some
contained managed index `j` existing under neither name.  The base index
of a restored `i` itself may exist. -/
theorem restore_only_if_conditions (cfg : Config) (env : Env) (s i : Name)
    (h : RCall.restore s i ∈ restore_missing_searchable_snapshots cfg env) :
    py_startswith i ".ds".data = false ∧
    (i ++ snapSuffix) ∉ env.indices ∧
    ∃ snap, snap ∈ env.snapshots ∧ snap.id = s ∧ snap.status = "SUCCESS".data ∧
      0 ≤ snapshot_age_days_env env snap ∧
      (cfg.hot_storage_days : ℚ) ≤ snapshot_age_days_env env snap ∧
      ∃ info, env.snapDetail s = some info ∧
      ∃ idxs, info.indices = some idxs ∧ i ∈ idxs ∧
      ∃ j, j ∈ idxs ∧ py_startswith j ".ds".data = false ∧
        should_manage_index cfg j = true ∧
        j ∉ env.indices ∧ (j ++ snapSuffix) ∉ env.indices := by
  simp only [restore_missing_searchable_snapshots] at h
  rw [List.mem_flatMap] at h
  obtain ⟨snap, hsnap, hbody⟩ := h
  by_cases hstat : snap.status ≠ "SUCCESS".data
  · rw [if_pos hstat] at hbody; cases hbody
  rw [if_neg hstat] at hbody
  push_neg at hstat
  by_cases hneg : snapshot_age_days_env env snap < 0
  · rw [if_pos hneg] at hbody; cases hbody
  rw [if_neg hneg] at hbody
  by_cases hyoung : snapshot_age_days_env env snap < (cfg.hot_storage_days : ℚ)
  · rw [if_pos hyoung] at hbody; cases hbody
  rw [if_neg hyoung] at hbody
  cases hdet : env.snapDetail snap.id with
  | none => simp only [hdet] at hbody; cases hbody
  | some info =>
    simp only [hdet] at hbody
    cases hidx : info.indices with
    | none => simp only [hidx] at hbody; cases hbody
    | some idxs =>
      simp only [hidx] at hbody
      by_cases htrig : (idxs.any fun index_name =>
          ¬ py_startswith index_name ".ds".data ∧
          should_manage_index cfg index_name ∧
          index_name ∉ env.indices ∧
          (index_name ++ snapSuffix) ∉ env.indices) = true
      swap
      · rw [if_neg htrig] at hbody; cases hbody
      rw [if_pos htrig] at hbody
      simp only [restore_as_searchable, hdet, hidx] at hbody
      rw [List.mem_flatMap] at hbody
      obtain ⟨i', hi', hmem⟩ := hbody
      by_cases hds : py_startswith i' ".ds".data = true
      · rw [if_pos hds] at hmem; cases hmem
      rw [if_neg hds] at hmem
      by_cases hmount : (i' ++ snapSuffix) ∈ env.indices
      · rw [if_pos hmount] at hmem; cases hmem
      rw [if_neg hmount] at hmem
      rw [List.mem_singleton] at hmem
      injection hmem with hs hi
      subst hs
      subst hi
      refine ⟨Bool.eq_false_iff.mpr hds, hmount, snap, hsnap, rfl, hstat,
        not_lt.mp hneg, not_lt.mp hyoung, info, hdet, idxs, hidx, hi', ?_⟩
      rw [List.any_eq_true] at htrig
      obtain ⟨j, hj, hjp⟩ := htrig
      rw [decide_eq_true_eq] at hjp
      obtain ⟨hj1, hj2, hj3, hj4⟩ := hjp
      exact ⟨j, hj, Bool.eq_false_iff.mpr hj1, hj2, hj3, hj4⟩

/-- C5, witness: the only-if conditions extracted for the restored
index `log-a` of snapshot `s1` on `envRestore`. -/
theorem restore_only_if_conditions_witness :
    py_startswith "log-a".data ".ds".data = false ∧
    ("log-a".data ++ snapSuffix) ∉ envRestore.indices := by
  have h := restore_only_if_conditions cfgSweep envRestore "s1".data "log-a".data
    (by rw [restore_env_restore_trace]; decide)
  exact ⟨h.1, h.2.1⟩

/-! ## Claim C3 -/

/-- Phase 1 of the sweep does nothing on `envSweep` (no searchable
index exists there). -/
theorem cleanup_phase1_env_sweep : cleanup_phase1 cfgSweep envSweep = [] := by
  simp only [cleanup_phase1]
  rw [show envSweep.indices = ["log-old".data] from rfl]
  simp only [List.flatMap_cons, List.flatMap_nil, List.append_nil]
  rw [if_neg (show ¬ py_endswith "log-old".data snapSuffix = true by decide)]

/-- The 100-day-old index `log-old` as the sweep ages it. -/
theorem index_log_old_age : get_index_age_days envSweep "log-old".data = 100 := by
  have h1 : (envSweep.indexCreationDate "log-old".data) = some (some "0".data) := rfl
  have hp : (some "0".data).bind py_int? = some 0 := by decide
  simp only [get_index_age_days, h1, hp]
  norm_num [envSweep]

/-- The 10-day-old snapshot `log-old` as the sweep ages it. -/
theorem snap_young_age : snapshot_age_days_env envSweep snapYoung = 10 := by
  have he : snapshot_age_epoch snapYoung (envSweep.snapDetail snapYoung.id)
      = some 7776000 := by decide
  simp only [snapshot_age_days_env, snapshot_age_days, he]
  norm_num [envSweep]

/-- Phase 2 of the sweep on `envSweep`: deletes the 100-day-old index
`log-old` and then its like-named snapshot — which is only 10 days
old. -/
theorem cleanup_phase2_env_sweep :
    cleanup_phase2 cfgSweep envSweep
      = [Call.deleteIndex "log-old".data, Call.deleteSnapshot "log-old".data] := by
  simp only [cleanup_phase2]
  rw [show envSweep.indices = ["log-old".data] from rfl]
  simp only [List.flatMap_cons, List.flatMap_nil, List.append_nil]
  rw [if_neg (show ¬¬ should_manage_index cfgSweep "log-old".data = true by decide)]
  rw [if_neg (show ¬ py_endswith "log-old".data snapSuffix = true by decide)]
  rw [index_log_old_age]
  rw [if_pos (show (cfgSweep.total_retention_days : ℚ) ≤ 100 by norm_num [cfgSweep])]
  decide

/-- Phase 3 of the sweep on `envSweep` deletes nothing: the snapshot
`log-old` is only 10 days old, below retention. -/
theorem cleanup_phase3_env_sweep : cleanup_phase3 cfgSweep envSweep = [] := by
  simp only [cleanup_phase3]
  rw [show envSweep.snapshots = [snapYoung] from rfl]
  simp only [List.flatMap_cons, List.flatMap_nil, List.append_nil]
  rw [snap_young_age]
  rw [if_neg (show ¬ (10:ℚ) < 0 by norm_num),
      if_neg (show ¬ (20000:ℚ) ≤ 10 by norm_num),
      if_neg (show ¬ (cfgSweep.total_retention_days : ℚ) ≤ 10 by norm_num [cfgSweep])]

/-- C3, counterexample: the sweep on `envSweep` issues a delete for the
snapshot `log-old` (in phase 2, as companion of its 100-day-old index)
although that snapshot's own computed age is 10 days, strictly below
the 90-day retention: the companion-snapshot deletion is not guarded by
the snapshot's age. -/
theorem companion_snapshot_deleted_below_retention :
    cleanup_old_data cfgSweep envSweep
      = [Call.deleteIndex "log-old".data, Call.deleteSnapshot "log-old".data] ∧
    snapYoung ∈ envSweep.snapshots ∧ snapYoung.id = "log-old".data ∧
    snapshot_age_days_env envSweep snapYoung = 10 ∧
    (10 : ℚ) < (cfgSweep.total_retention_days : ℚ) := by
  refine ⟨?_, by decide, by decide, snap_young_age, by norm_num [cfgSweep]⟩
  rw [cleanup_old_data, cleanup_phase1_env_sweep, cleanup_phase2_env_sweep,
    cleanup_phase3_env_sweep]
  rfl

/-- C3 (amended): every delete the sweep issues is guarded by the age
the sweep computed for the item that triggered it — phase-1 index
deletes by the searchable-snapshot age, phase-2 index deletes by the
index age, phase-3 snapshot (and mount) deletes by a snapshot age that
is known (≥ 0), plausible (< 20000) and at least retention; but a
phase-2 companion-snapshot delete is guarded only by the age of the
corresponding index, not by the snapshot's own age. -/
theorem cleanup_age_guards (cfg : Config) (env : Env) :
    (∀ n, Call.deleteIndex n ∈ cleanup_phase1 cfg env →
        (cfg.total_retention_days : ℚ) ≤ get_searchable_snapshot_age_days env n) ∧
    (∀ n, Call.deleteIndex n ∈ cleanup_phase2 cfg env →
        (cfg.total_retention_days : ℚ) ≤ get_index_age_days env n) ∧
    (∀ n, Call.deleteSnapshot n ∈ cleanup_phase2 cfg env →
        ∃ index_name, index_name ∈ env.indices ∧
          n = get_corresponding_snapshot_name index_name ∧
          (cfg.total_retention_days : ℚ) ≤ get_index_age_days env index_name) ∧
    (∀ n, Call.deleteSnapshot n ∈ cleanup_phase3 cfg env →
        ∃ snap, snap ∈ env.snapshots ∧ n = snap.id ∧
          0 ≤ snapshot_age_days_env env snap ∧
          snapshot_age_days_env env snap < 20000 ∧
          (cfg.total_retention_days : ℚ) ≤ snapshot_age_days_env env snap) ∧
    (∀ n, Call.deleteIndex n ∈ cleanup_phase3 cfg env →
        ∃ snap, snap ∈ env.snapshots ∧ n = snap.id ∧
          0 ≤ snapshot_age_days_env env snap ∧
          snapshot_age_days_env env snap < 20000 ∧
          (cfg.total_retention_days : ℚ) ≤ snapshot_age_days_env env snap) := by
  refine ⟨?_, ?_, ?_, ?_, ?_⟩
  · intro n hn
    simp only [cleanup_phase1] at hn
    rw [List.mem_flatMap] at hn
    obtain ⟨idx, hidx, hb⟩ := hn
    by_cases h1 : py_endswith idx snapSuffix = true
    swap
    · rw [if_neg h1] at hb; cases hb
    rw [if_pos h1] at hb
    by_cases h2 : should_manage_index cfg (py_replace_empty idx snapSuffix) = true
    swap
    · rw [if_neg h2] at hb; cases hb
    rw [if_pos h2] at hb
    by_cases h3 : (cfg.total_retention_days : ℚ) ≤ get_searchable_snapshot_age_days env idx
    swap
    · rw [if_neg h3] at hb; cases hb
    rw [if_pos h3] at hb
    rw [List.mem_singleton] at hb
    injection hb with hn'
    subst hn'
    exact h3
  · intro n hn
    simp only [cleanup_phase2] at hn
    rw [List.mem_flatMap] at hn
    obtain ⟨idx, hidx, hb⟩ := hn
    by_cases h1 : should_manage_index cfg idx = true
    swap
    · rw [if_pos h1] at hb; cases hb
    rw [if_neg (not_not_intro h1)] at hb
    by_cases h2 : py_endswith idx snapSuffix = true
    · rw [if_pos h2] at hb; cases hb
    rw [if_neg h2] at hb
    by_cases h3 : (cfg.total_retention_days : ℚ) ≤ get_index_age_days env idx
    swap
    · rw [if_neg h3] at hb; cases hb
    rw [if_pos h3] at hb
    rw [List.mem_cons] at hb
    rcases hb with hb | hb
    · injection hb with hn'
      subst hn'
      exact h3
    · by_cases h4 : get_corresponding_snapshot_name idx ≠ []
      · rw [if_pos h4, List.mem_singleton] at hb
        injection hb
      · rw [if_neg h4] at hb; cases hb
  · intro n hn
    simp only [cleanup_phase2] at hn
    rw [List.mem_flatMap] at hn
    obtain ⟨idx, hidx, hb⟩ := hn
    by_cases h1 : should_manage_index cfg idx = true
    swap
    · rw [if_pos h1] at hb; cases hb
    rw [if_neg (not_not_intro h1)] at hb
    by_cases h2 : py_endswith idx snapSuffix = true
    · rw [if_pos h2] at hb; cases hb
    rw [if_neg h2] at hb
    by_cases h3 : (cfg.total_retention_days : ℚ) ≤ get_index_age_days env idx
    swap
    · rw [if_neg h3] at hb; cases hb
    rw [if_pos h3] at hb
    rw [List.mem_cons] at hb
    rcases hb with hb | hb
    · injection hb
    · by_cases h4 : get_corresponding_snapshot_name idx ≠ []
      · rw [if_pos h4, List.mem_singleton] at hb
        injection hb with hn'
        subst hn'
        exact ⟨idx, hidx, rfl, h3⟩
      · rw [if_neg h4] at hb; cases hb
  · intro n hn
    simp only [cleanup_phase3] at hn
    rw [List.mem_flatMap] at hn
    obtain ⟨snap, hsnap, hb⟩ := hn
    by_cases h1 : snapshot_age_days_env env snap < 0
    · rw [if_pos h1] at hb; cases hb
    rw [if_neg h1] at hb
    by_cases h2 : (20000 : ℚ) ≤ snapshot_age_days_env env snap
    · rw [if_pos h2] at hb; cases hb
    rw [if_neg h2] at hb
    by_cases h3 : (cfg.total_retention_days : ℚ) ≤ snapshot_age_days_env env snap
    swap
    · rw [if_neg h3] at hb; cases hb
    rw [if_pos h3] at hb
    simp only [delete_snapshot_with_cleanup] at hb
    rw [List.mem_append] at hb
    rcases hb with hb | hb
    · by_cases h4 : py_endswith snap.id snapSuffix = true ∧ env.indexExists snap.id = true
      · rw [if_pos h4, List.mem_singleton] at hb
        injection hb
      · rw [if_neg h4] at hb; cases hb
    · rw [List.mem_singleton] at hb
      injection hb with hn'
      subst hn'
      exact ⟨snap, hsnap, rfl, not_lt.mp h1, not_le.mp h2, h3⟩
  · intro n hn
    simp only [cleanup_phase3] at hn
    rw [List.mem_flatMap] at hn
    obtain ⟨snap, hsnap, hb⟩ := hn
    by_cases h1 : snapshot_age_days_env env snap < 0
    · rw [if_pos h1] at hb; cases hb
    rw [if_neg h1] at hb
    by_cases h2 : (20000 : ℚ) ≤ snapshot_age_days_env env snap
    · rw [if_pos h2] at hb; cases hb
    rw [if_neg h2] at hb
    by_cases h3 : (cfg.total_retention_days : ℚ) ≤ snapshot_age_days_env env snap
    swap
    · rw [if_neg h3] at hb; cases hb
    rw [if_pos h3] at hb
    simp only [delete_snapshot_with_cleanup] at hb
    rw [List.mem_append] at hb
    rcases hb with hb | hb
    · by_cases h4 : py_endswith snap.id snapSuffix = true ∧ env.indexExists snap.id = true
      · rw [if_pos h4, List.mem_singleton] at hb
        injection hb with hn'
        subst hn'
        exact ⟨snap, hsnap, rfl, not_lt.mp h1, not_le.mp h2, h3⟩
      · rw [if_neg h4] at hb; cases hb
    · rw [List.mem_singleton] at hb
      injection hb

/-- C3, witness: the phase-2 guard extracted for the `log-old` index
delete on `envSweep`. -/
theorem cleanup_age_guards_witness :
    (cfgSweep.total_retention_days : ℚ) ≤ get_index_age_days envSweep "log-old".data :=
  (cleanup_age_guards cfgSweep envSweep).2.1 "log-old".data
    (by rw [cleanup_phase2_env_sweep]; decide)

/-! ## Claim C2 -/

theorem deleteOriginal_not_mem_cleanup (st : ClusterState) :
    Ev.deleteOriginal ∉ cleanupEvents st := by
  cases hs : st.searchableExists <;> cases hn : st.snapshotExists <;>
    simp [cleanupEvents, hs, hn]

theorem attempt_done_eq (st : ClusterState) (o : AttemptOutcome)
    (h : (attempt st o).2.2 = true) :
    attempt st o = (⟨false, true, true⟩,
      [Ev.snapshotCreateValidate true, Ev.searchableMount true, Ev.deleteOriginal], true) := by
  cases hs : o.snapOk <;> cases hm : o.mountOk <;> simp [attempt, hs, hm] at h ⊢

theorem attempt_fail_state (st : ClusterState) (o : AttemptOutcome)
    (h : (attempt st o).2.2 = false) :
    (attempt st o).1.originalExists = st.originalExists ∧
    (attempt st o).1.searchableExists = false ∧
    (attempt st o).1.snapshotExists = false := by
  cases hs : o.snapOk <;> cases hm : o.mountOk <;>
    simp [attempt, hs, hm, cleanupState] at h ⊢

theorem attempt_fail_trace (st : ClusterState) (o : AttemptOutcome)
    (h : (attempt st o).2.2 = false) :
    Ev.deleteOriginal ∉ (attempt st o).2.1 := by
  cases hs : o.snapOk
  · intro hmem
    simp only [attempt, hs, Bool.false_eq_true, if_false] at hmem
    rw [List.mem_cons] at hmem
    rcases hmem with hmem | hmem
    · cases hmem
    · exact deleteOriginal_not_mem_cleanup _ hmem
  · cases hm : o.mountOk
    · intro hmem
      simp only [attempt, hs, hm, Bool.false_eq_true, if_false, if_true] at hmem
      rw [List.mem_append] at hmem
      rcases hmem with hmem | hmem
      · rw [List.mem_cons, List.mem_singleton] at hmem
        rcases hmem with hmem | hmem <;> cases hmem
      · exact deleteOriginal_not_mem_cleanup _ hmem
    · exfalso
      simp [attempt, hs, hm] at h

theorem snapshot_and_replace_cons_fail (o : AttemptOutcome) (rest : List AttemptOutcome)
    (st0 : ClusterState) (hfail : (attempt st0 o).2.2 = false) :
    snapshot_and_replace_index (o :: rest) st0
      = ((snapshot_and_replace_index rest (attempt st0 o).1).1,
         (attempt st0 o).2.1 ++ (snapshot_and_replace_index rest (attempt st0 o).1).2) := by
  simp [snapshot_and_replace_index, hfail]

/-- C2: in `_snapshot_and_replace_index`, the delete of the original
index appears in the call trace only at the end of a successful
attempt, immediately after snapshot creation-and-validation and
searchable-mount creation have both returned success; and after any
terminating run (at least one attempt) the abstract cluster state is in
exactly one of two states — original deleted with the searchable mount
(and its backing snapshot) present, or original intact with no leftover
searchable index or snapshot. -/
theorem snapshot_and_replace_state_machine :
    ∀ (outcomes : List AttemptOutcome) (st0 : ClusterState),
      outcomes ≠ [] → st0.originalExists = true →
      ((Ev.deleteOriginal ∈ (snapshot_and_replace_index outcomes st0).2 →
        ∃ pre, (snapshot_and_replace_index outcomes st0).2
          = pre ++ [Ev.snapshotCreateValidate true, Ev.searchableMount true,
              Ev.deleteOriginal]) ∧
      (((snapshot_and_replace_index outcomes st0).1.originalExists = false ∧
        (snapshot_and_replace_index outcomes st0).1.searchableExists = true ∧
        (snapshot_and_replace_index outcomes st0).1.snapshotExists = true) ∨
       ((snapshot_and_replace_index outcomes st0).1.originalExists = true ∧
        (snapshot_and_replace_index outcomes st0).1.searchableExists = false ∧
        (snapshot_and_replace_index outcomes st0).1.snapshotExists = false))) := by
  intro outcomes
  induction outcomes with
  | nil => intro st0 hne _; exact absurd rfl hne
  | cons o rest ih =>
    intro st0 _ h0
    cases hdone : (attempt st0 o).2.2
    · -- the attempt failed and was cleaned up
      rw [snapshot_and_replace_cons_fail o rest st0 hdone]
      obtain ⟨ho, hsearch, hsnap⟩ := attempt_fail_state st0 o hdone
      cases rest with
      | nil =>
        simp only [snapshot_and_replace_index]
        constructor
        · intro hmem
          simp only [List.append_nil] at hmem
          exact absurd hmem (attempt_fail_trace st0 o hdone)
        · right
          exact ⟨by rw [ho, h0], hsearch, hsnap⟩
      | cons o2 rest2 =>
        obtain ⟨iha, ihb⟩ := ih ((attempt st0 o).1) (by simp) (by rw [ho, h0])
        constructor
        · intro hmem
          rw [List.mem_append] at hmem
          rcases hmem with hmem | hmem
          · exact absurd hmem (attempt_fail_trace st0 o hdone)
          · obtain ⟨pre, hpre⟩ := iha hmem
            exact ⟨(attempt st0 o).2.1 ++ pre, by rw [hpre, List.append_assoc]⟩
        · exact ihb
    · -- the attempt succeeded: delete-original is the last event
      have hres : snapshot_and_replace_index (o :: rest) st0
          = (⟨false, true, true⟩,
             [Ev.snapshotCreateValidate true, Ev.searchableMount true,
               Ev.deleteOriginal]) := by
        simp [snapshot_and_replace_index, attempt_done_eq st0 o hdone]
      rw [hres]
      exact ⟨fun _ => ⟨[], rfl⟩, Or.inl ⟨rfl, rfl, rfl⟩⟩

/-- C2, witness: a one-attempt successful run from the fresh state ends
with the original deleted and the mount present. -/
theorem snapshot_and_replace_state_machine_witness :
    (snapshot_and_replace_index [attemptSuccess] freshState).1.originalExists = false ∧
    (snapshot_and_replace_index [attemptSuccess] freshState).1.searchableExists = true := by
  rcases (snapshot_and_replace_state_machine [attemptSuccess] freshState (by simp) rfl).2
    with h | h
  · exact ⟨h.1, h.2.1⟩
  · exfalso
    have hfalse : (snapshot_and_replace_index [attemptSuccess] freshState).1.originalExists
        = false := by decide
    rw [hfalse] at h
    exact Bool.false_ne_true h.1

end OsMgmt
